import Mathlib

/-!
Verification of the dish-booking-agent repository against its
natural-language specification.  The frontend routes and pages are
embedded from the TypeScript sources; the backend orchestration core
(session store, tool gateway, token refresher, agent loop, credential
store) is not shipped in the source tree, so those components are
modelled faithfully from the specification text, as flagged on each
definition.
-/

namespace DishAgent

/-! ## Credential Store (secret surface) -/

/-- Modelled from the spec: the Credential Store secret surface
("get_secret(user_id, key)", "set_secret(user_id, key, value)",
"delete_secret(user_id, key)", section 6).  The store itself is an
external collaborator whose implementation is absent from the source
tree; it is modelled as an association list keyed by (user_id, key). -/
abbrev SecretStore : Type := List ((String × String) × String)

/-- Modelled from the spec: get_secret looks up the value stored for
(user_id, key), absent when no entry exists. -/
def get_secret : SecretStore → String → String → Option String
  | [], _, _ => none
  | (uk, v) :: rest, u, k => if uk = (u, k) then some v else get_secret rest u k

/-- Modelled from the spec: delete_secret removes every entry for
(user_id, key). -/
def delete_secret (st : SecretStore) (u k : String) : SecretStore :=
  st.filter (fun e => decide (e.1 ≠ (u, k)))

/-- Modelled from the spec: set_secret stores value under (user_id, key),
replacing any previous entry. -/
def set_secret (st : SecretStore) (u k v : String) : SecretStore :=
  ((u, k), v) :: delete_secret st u k

theorem get_secret_delete (st : SecretStore) (u k : String) :
    get_secret (delete_secret st u k) u k = none := by
  induction st with
  | nil => rfl
  | cons e rest ih =>
    by_cases h : e.1 = (u, k)
    · simpa [delete_secret, List.filter, h] using ih
    · simpa [delete_secret, List.filter, h, get_secret] using ih

/-! ## Session Store -/

/-- Provider tag of a tool, as in the spec data model (section 3). -/
inductive Provider where
  | booking
  | calendar
deriving DecidableEq

/-- ToolCall record from the spec data model (section 3). -/
structure ToolCall where
  tool_name : String
  provider : Provider
  arguments : String
deriving DecidableEq

/-- Role of a conversation turn (section 3). -/
inductive Role where
  | user
  | assistant
  | tool
deriving DecidableEq

/-- Turn record from the spec data model (section 3). -/
structure Turn where
  role : Role
  content : String
  tool_calls : List ToolCall
deriving DecidableEq

/-- Per-session agent state (section 4.4 state machine, collapsed to the
externally observable states between turns). -/
inductive AgentState where
  | idle
  | running
deriving DecidableEq

/-- Session record from the spec data model (section 3). -/
structure Session where
  id : String
  history : List Turn
  state : AgentState
deriving DecidableEq

/-- Modelled from the spec: the Session Store maps an opaque session
identifier to a Session (section 4.1); the store implementation is absent
from the source tree. -/
abbrev SessionStore : Type := List (String × Session)

def lookupSession : SessionStore → String → Option Session
  | [], _ => none
  | (i, s) :: rest, sid => if i = sid then some s else lookupSession rest sid

/-- Fresh empty session created on first contact with an id. -/
def emptySession (sid : String) : Session :=
  { id := sid, history := [], state := .idle }

/-- Modelled from the spec: get_or_create returns the stored session for
a known id and transparently creates a new empty session for an unseen
id, never failing (section 4.1). -/
def get_or_create (st : SessionStore) (sid : String) : SessionStore × Session :=
  match lookupSession st sid with
  | some s => (st, s)
  | none => ((sid, emptySession sid) :: st, emptySession sid)

/-- Number of sessions stored under a given id. -/
def countKey (st : SessionStore) (sid : String) : Nat :=
  (st.filter (fun e => decide (e.1 = sid))).length

/-- Sequential execution of a batch of get_or_create calls. -/
def runCalls (st : SessionStore) : List String → SessionStore
  | [] => st
  | sid :: rest => runCalls (get_or_create st sid).1 rest

theorem lookupSession_none_countKey (st : SessionStore) (sid : String)
    (h : lookupSession st sid = none) : countKey st sid = 0 := by
  induction st with
  | nil => rfl
  | cons e rest ih =>
    obtain ⟨i, s⟩ := e
    by_cases hi : i = sid
    · simp [lookupSession, hi] at h
    · simp only [lookupSession, if_neg hi] at h
      simpa [countKey, List.filter, hi] using ih h

theorem countKey_get_or_create (st : SessionStore) (sid t : String) :
    countKey (get_or_create st sid).1 t ≤ max 1 (countKey st t) := by
  unfold get_or_create
  cases h : lookupSession st sid with
  | some s => simp [le_max_iff]
  | none =>
    by_cases ht : sid = t
    · subst ht
      have h0 := lookupSession_none_countKey st sid h
      unfold countKey at h0 ⊢
      rw [List.filter_cons]
      simp [h0]
    · simp [countKey, List.filter, ht, le_max_iff]

theorem countKey_runCalls (st : SessionStore) (sids : List String) (t : String)
    (h : countKey st t ≤ 1) : countKey (runCalls st sids) t ≤ 1 := by
  induction sids generalizing st with
  | nil => exact h
  | cons sid rest ih =>
    refine ih _ ?_
    have := countKey_get_or_create st sid t
    omega

/-! ## Tool Gateway -/

/-- Modelled from the spec: the provider tag prepended to each tool name
when the Tool Gateway merges the two catalogs (section 4.2); the gateway
implementation is absent from the source tree.  Names are modelled as
character lists. -/
def tagChars : Provider → List Char
  | .booking => ['b', 'o', 'o', 'k', 'i', 'n', 'g', '_']
  | .calendar => ['c', 'a', 'l', 'e', 'n', 'd', 'a', 'r', '_']

/-- Modelled from the spec: the merged, provider-tagged name under which
a raw provider tool is exposed to the model. -/
def mergedName (p : Provider) (raw : List Char) : List Char :=
  tagChars p ++ raw

/-- Modelled from the spec: list_tools merges both providers' catalogs,
tagging each tool name with its owning provider (section 4.2). -/
def list_tools (bookingCatalog calendarCatalog : List (List Char)) :
    List (List Char × Provider) :=
  bookingCatalog.map (fun n => (mergedName .booking n, Provider.booking)) ++
    calendarCatalog.map (fun n => (mergedName .calendar n, Provider.calendar))

/-- Modelled from the spec: on invoke, the gateway resolves the provider
from the tool name's tag (section 4.2). -/
def resolveProvider (name : List Char) : Option Provider :=
  if (tagChars .booking).isPrefixOf name then some .booking
  else if (tagChars .calendar).isPrefixOf name then some .calendar
  else none

theorem resolveProvider_mergedName (p : Provider) (raw : List Char) :
    resolveProvider (mergedName p raw) = some p := by
  cases p with
  | booking =>
    have hpre : (tagChars .booking).isPrefixOf (mergedName .booking raw) = true := by
      rw [ List.isPrefixOf_iff_prefix]
      exact List.prefix_append _ _
    simp [resolveProvider, hpre]
  | calendar =>
    have hnot : (tagChars .booking).isPrefixOf (mergedName .calendar raw) = false := by
      rw [Bool.eq_false_iff, Ne, List.isPrefixOf_iff_prefix]
      intro hc
      simp [tagChars, mergedName, List.cons_prefix_cons] at hc
    have hpre : (tagChars .calendar).isPrefixOf (mergedName .calendar raw) = true := by
      rw [ List.isPrefixOf_iff_prefix]
      exact List.prefix_append _ _
    simp [resolveProvider, hnot, hpre]

/-! ## Token Refresher -/

/-- OAuthToken record from the spec data model (section 3). -/
structure OAuthToken where
  access_token : String
  refresh_token : String
  expiry : Nat
deriving DecidableEq

/-- Outcome of the provider's refresh-token exchange (section 4.3). -/
inductive ExchangeResult where
  | refreshed (t : OAuthToken)
  | revoked
deriving DecidableEq

/-- Result signalled by ensure_fresh to its caller (sections 4.3, 7). -/
inductive EnsureOutcome where
  | fresh (t : OAuthToken)
  | credentialRevoked
  | credentialMissing
deriving DecidableEq

/-- Safety margin, in seconds, used by the expiry check (section 4.3). -/
def safetyMargin : Nat := 60

/-- State left behind by one ensure_fresh call: the stored token after
the call, the signalled outcome, and how many refresh-token exchanges
were performed against the provider. -/
structure EnsureTrace where
  store : Option OAuthToken
  outcome : EnsureOutcome
  exchanges : Nat
deriving DecidableEq

/-- Modelled from the spec: ensure_fresh checks the stored token's expiry
against current time plus the safety margin; refreshes and persists by
whole replacement when expired or near expiry; deletes the stored token
and signals CredentialRevoked on a revocation response, without retrying
(section 4.3).  The refresher implementation is absent from the source
tree. -/
def ensure_fresh (now : Nat) (stored : Option OAuthToken)
    (exchange : OAuthToken → ExchangeResult) : EnsureTrace :=
  match stored with
  | none => { store := none, outcome := .credentialMissing, exchanges := 0 }
  | some tok =>
    if tok.expiry ≤ now + safetyMargin then
      match exchange tok with
      | .refreshed newTok =>
        { store := some newTok, outcome := .fresh newTok, exchanges := 1 }
      | .revoked => { store := none, outcome := .credentialRevoked, exchanges := 1 }
    else { store := some tok, outcome := .fresh tok, exchanges := 0 }

/-! ## Agent Loop -/

/-- Response of one model invocation, as seen by the loop: either a batch
of tool-call requests, a final reply (as a list of output chunks), or a
terminal transport or credential failure (sections 4.4, 7). -/
inductive ModelStep where
  | toolCalls (calls : List ToolCall)
  | finalReply (chunks : List String)
  | upstreamFail
  | credentialFail
deriving DecidableEq

/-- Fixed iteration bound on the tool-call loop (section 4.4, step 3). -/
def toolBound : Nat := 8

/-- Synthesized apology turn emitted when the loop bound is hit. -/
def apologyTurn : Turn :=
  { role := .assistant
    content := "Sorry, I could not complete that request."
    tool_calls := [] }

/-- Tool-result turn appended after dispatching a batch of tool calls. -/
def toolTurn (calls : List ToolCall) : Turn :=
  { role := .tool, content := "", tool_calls := calls }

/-- Assistant turn built from the full sequence of output chunks. -/
def assistantTurn (chunks : List String) : Turn :=
  { role := .assistant, content := String.join chunks, tool_calls := [] }

/-- Turn of the user message that starts a turn of the loop. -/
def userTurn (msg : String) : Turn :=
  { role := .user, content := msg, tool_calls := [] }

/-- Outcome of one run of the tool-call loop, together with the turns it
built while running (still pending, not yet committed to history). -/
inductive LoopOutcome where
  | completed (pending : List Turn) (chunks : List String)
  | toolBoundExceeded (apology : Turn)
  | upstreamError
  | credentialError
deriving DecidableEq

/-- Modelled from the spec: the tool-call loop of run_turn (section 4.4,
steps 2-4).  The model oracle gives the response to the i-th model
invocation; fuel counts the remaining tool-call iterations before the
bound is hit.  The second component of the result is the number of
tool-call dispatch iterations performed.  The agent loop implementation
is absent from the source tree. -/
def runLoop (model : Nat → ModelStep) : Nat → Nat → List Turn → LoopOutcome × Nat
  | 0, i, _ => (.toolBoundExceeded apologyTurn, i)
  | fuel + 1, i, pending =>
    match model i with
    | .toolCalls calls => runLoop model fuel (i + 1) (pending ++ [toolTurn calls])
    | .finalReply chunks => (.completed (pending ++ [assistantTurn chunks]) chunks, i)
    | .upstreamFail => (.upstreamError, i)
    | .credentialFail => (.credentialError, i)

/-- Modelled from the spec: one whole turn, at the bound of 8 tool-call
iterations, starting from the pending user turn. -/
def runTurnLoop (model : Nat → ModelStep) (msg : String) : LoopOutcome × Nat :=
  runLoop model toolBound 0 [userTurn msg]

theorem runLoop_dispatch_le (model : Nat → ModelStep) (fuel i : Nat)
    (pending : List Turn) : (runLoop model fuel i pending).2 ≤ i + fuel := by
  induction fuel generalizing i pending with
  | zero => simp [runLoop]
  | succ n ih =>
    cases hc : model i with
    | toolCalls calls =>
      have h2 := ih (i + 1) (pending ++ [toolTurn calls])
      simp only [runLoop, hc]
      omega
    | finalReply chunks => simp [runLoop, hc]
    | upstreamFail => simp [runLoop, hc]
    | credentialFail => simp [runLoop, hc]

theorem runLoop_all_toolCalls (model : Nat → ModelStep)
    (h : ∀ j, ∃ calls, model j = .toolCalls calls) (fuel i : Nat)
    (pending : List Turn) :
    runLoop model fuel i pending = (.toolBoundExceeded apologyTurn, i + fuel) := by
  induction fuel generalizing i pending with
  | zero => simp [runLoop]
  | succ n ih =>
    obtain ⟨calls, hc⟩ := h i
    simp only [runLoop, hc]
    rw [ih (i + 1) (pending ++ [toolTurn calls])]
    have he : i + 1 + n = i + (n + 1) := by omega
    rw [he]

/-- Result of a whole turn at the session level (sections 4.4, 5, 7). -/
inductive TurnResult where
  | completed (chunks : List String)
  | toolBoundExceeded
  | upstreamError
  | credentialError
  | disconnected
deriving DecidableEq

/-- Modelled from the spec: run_turn at the session level.  The loop's
pending turns are committed to history only when the turn completes and
the caller stays connected through the whole chunk stream; every terminal
failure, including a mid-stream disconnect, discards the pending turns
and returns the session to Idle (sections 4.4, 5, 7).
disconnectAfter gives the number of chunks the caller receives before
disconnecting, when it disconnects at all. -/
def run_turn (sess : Session) (msg : String) (model : Nat → ModelStep)
    (disconnectAfter : Option Nat) : Session × TurnResult :=
  match (runTurnLoop model msg).1 with
  | .completed pending chunks =>
    match disconnectAfter with
    | some j =>
      if j < chunks.length then
        ({ sess with state := .idle }, .disconnected)
      else
        ({ sess with history := sess.history ++ pending, state := .idle },
          .completed chunks)
    | none =>
      ({ sess with history := sess.history ++ pending, state := .idle },
        .completed chunks)
  | .toolBoundExceeded _ => ({ sess with state := .idle }, .toolBoundExceeded)
  | .upstreamError => ({ sess with state := .idle }, .upstreamError)
  | .credentialError => ({ sess with state := .idle }, .credentialError)

/-! ## Send-message response shapes (spec section 6 and the chat client) -/

/-- Event of the streamed response variant: one event per output chunk,
then a final terminating event. -/
inductive SseEvent where
  | chunk (text : String)
  | done
deriving DecidableEq

/-- Modelled from the spec: the streamed event sequence a backend turn
produces from its output chunks (section 6); the backend implementation
is absent from the source tree. -/
def streamEvents (chunks : List String) : List SseEvent :=
  chunks.map SseEvent.chunk ++ [SseEvent.done]

/-- Shape of the JSON payload a batched response parses to, as the chat
client distinguishes it (src/unnamed/part_002, handleSend): a JSON array
of strings, or anything else. -/
inductive JsonPayload where
  | arr (items : List String)
  | nonArray
deriving DecidableEq

/-- What the chat client does with one send-message response. -/
inductive ClientResult where
  | appended (msgs : List String)
  | errorShown
deriving DecidableEq

/-- Embedded from src/unnamed/part_002, handleSend: a non-ok response or
a non-array payload raises, which the catch turns into the error banner;
an array payload is appended one assistant message per element. -/
def handleSendPayload (ok : Bool) (payload : JsonPayload) : ClientResult :=
  if ok then
    match payload with
    | .arr items => .appended items
    | .nonArray => .errorShown
  else .errorShown

/-! ## Frontend send-message proxy route -/

/-- Query parameters of the proxy route
(src/frontend/app/api/backend/send-message/route.ts). -/
structure ProxyRequest where
  message : Option String
  session : Option String
deriving DecidableEq

/-- Outcome of the backend fetch as the route observes it: the fetch
itself may throw, otherwise it yields a response with a status code. -/
inductive BackendReply where
  | connectFail
  | response (status : Nat)
deriving DecidableEq

/-- Body shape of the route's own response. -/
inductive ProxyBody where
  | jsonError
  | streamedBackendBody
deriving DecidableEq

/-- Response the proxy route returns to its caller. -/
structure ProxyResponse where
  status : Nat
  body : ProxyBody
deriving DecidableEq

/-- Fetch response .ok flag: status in the range 200-299. -/
def respOk (status : Nat) : Bool := 200 ≤ status && status < 300

/-- Embedded from src/frontend/app/api/backend/send-message/route.ts,
GET: the guard is the JavaScript falsy check on the message parameter, so
a null or empty message short-circuits to 400 before any fetch; otherwise
one backend fetch is made with the session parameter defaulted to
"default" when it is null (empty session strings pass through, matching
the null-coalescing operator in the code); a non-ok backend status is
forwarded as a JSON error with the same status; a thrown fetch maps to
502.  The second component lists the (message, session) pairs fetched
from the backend, in order. -/
def sendMessageGET (req : ProxyRequest) (backend : String → String → BackendReply) :
    ProxyResponse × List (String × String) :=
  match req.message with
  | none => ({ status := 400, body := .jsonError }, [])
  | some msg =>
    if msg = "" then ({ status := 400, body := .jsonError }, [])
    else
      let session := req.session.getD "default"
      match backend msg session with
      | .connectFail => ({ status := 502, body := .jsonError }, [(msg, session)])
      | .response st =>
        if respOk st then
          ({ status := 200, body := .streamedBackendBody }, [(msg, session)])
        else
          ({ status := st, body := .jsonError }, [(msg, session)])

/-! ## Settings page: credential save and Google disconnect -/

/-- White-space characters removed by the JavaScript string trim applied
in handleSave (ECMAScript TrimString: WhiteSpace and LineTerminator code
points). -/
def jsWhitespace (c : Char) : Bool :=
  c = ' ' || c = '\t' || c = '\n' || c = '\r' ||
    c = '\x0b' || c = '\x0c' || c = '\u00A0' || c = '\u1680' ||
    ('\u2000' <= c && c <= '\u200A') || c = '\u2028' || c = '\u2029' ||
    c = '\u202F' || c = '\u205F' || c = '\u3000' || c = '\uFEFF'

/-- JavaScript String.prototype.trim on a character list: strip leading
and trailing white space. -/
def jsTrim (s : List Char) : List Char :=
  (((s.dropWhile jsWhitespace).reverse.dropWhile jsWhitespace).reverse)

/-- Call made against the secret surface by one save. -/
inductive SecretCall where
  | deleteCall (key : String)
  | setCall (key : String) (value : List Char)
deriving DecidableEq

/-- Embedded from src/frontend/app/settings/page.tsx (and the identical
src/unnamed/part_000), handleSave: the input value is trimmed; an empty
trimmed value deletes the secret, any other value is set trimmed. -/
def handleSaveCall (key : String) (value : List Char) : SecretCall :=
  if jsTrim value = [] then .deleteCall key else .setCall key (jsTrim value)

/-- Credential keys of the settings page (src/unnamed/part_000). -/
inductive CredKey where
  | dishCookie
  | teamId
  | memberId
  | gcalAccessToken
  | gcalRefreshToken
  | gcalExpiryDate
deriving DecidableEq

/-- Membership in GCAL_CREDENTIAL_KEYS (src/unnamed/part_000). -/
def isGcalKey : CredKey → Bool
  | .gcalAccessToken => true
  | .gcalRefreshToken => true
  | .gcalExpiryDate => true
  | _ => false

/-- Save status of a credential field (src/unnamed/part_000,
CredentialState.saveStatus). -/
inductive SaveStatus where
  | statusIdle
  | statusSaved
  | statusError
deriving DecidableEq

/-- CredentialState record of the settings page (src/unnamed/part_000). -/
structure CredState where
  value : String
  originalValue : Option String
  isVisible : Bool
  isSaving : Bool
  saveStatus : SaveStatus
deriving DecidableEq

/-- Embedded from src/unnamed/part_000, handleGoogleDisconnect: when the
disconnect call succeeds, each Google Calendar credential entry has its
value cleared and originalValue set to null and every other entry is kept;
when the call throws, the credential state is not touched. -/
def handleGoogleDisconnect (ok : Bool) (creds : CredKey → CredState) :
    CredKey → CredState :=
  if ok then
    fun k =>
      if isGcalKey k then { creds k with value := "", originalValue := none }
      else creds k
  else creds

/-! ## Auxiliary lemmas on trimming -/

theorem dropWhile_head_not (p : Char → Bool) (l : List Char) (c : Char)
    (h : (l.dropWhile p).head? = some c) : p c = false := by
  induction l with
  | nil => simp [List.dropWhile] at h
  | cons a t ih =>
    by_cases hp : p a
    · rw [List.dropWhile_cons_of_pos hp] at h
      exact ih h
    · rw [List.dropWhile_cons_of_neg hp] at h
      simp at h
      rw [← h]
      exact Bool.eq_false_iff.mpr hp

theorem dropWhile_getLast (p : Char → Bool) (l : List Char)
    (h : l.dropWhile p ≠ []) : (l.dropWhile p).getLast? = l.getLast? := by
  induction l with
  | nil => simp [List.dropWhile] at h
  | cons a t ih =>
    by_cases hp : p a
    · rw [List.dropWhile_cons_of_pos hp] at h ⊢
      have ht : t ≠ [] := by
        intro he
        rw [he] at h
        simp [List.dropWhile] at h
      rw [ih h]
      obtain ⟨b, t', rfl⟩ := List.exists_cons_of_ne_nil ht
      simp [List.getLast?_cons_cons]
    · rw [List.dropWhile_cons_of_neg hp]

theorem jsTrim_head_not_ws (v : List Char) (c : Char)
    (h : (jsTrim v).head? = some c) : jsWhitespace c = false := by
  unfold jsTrim at h
  rw [List.head?_reverse] at h
  have hne : (v.dropWhile jsWhitespace).reverse.dropWhile jsWhitespace ≠ [] := by
    intro he
    rw [he] at h
    simp at h
  rw [dropWhile_getLast _ _ hne, List.getLast?_reverse] at h
  exact dropWhile_head_not _ _ _ h

theorem jsTrim_getLast_not_ws (v : List Char) (c : Char)
    (h : (jsTrim v).getLast? = some c) : jsWhitespace c = false := by
  unfold jsTrim at h
  rw [List.getLast?_reverse] at h
  exact dropWhile_head_not _ _ _ h

theorem jsTrim_all_ws (v : List Char) (h : ∀ c ∈ v, jsWhitespace c = true) :
    jsTrim v = [] := by
  have hz : v.dropWhile jsWhitespace = [] := List.dropWhile_eq_nil_iff.mpr h
  simp [jsTrim, hz, List.dropWhile]

/-! ## Claim theorems -/

/-- Claim C7: for every user, key, and value, set_secret followed by
get_secret returns exactly the value set, and delete_secret followed by
get_secret returns absent. -/
theorem secret_roundtrip (st : SecretStore) (u k v : String) :
    get_secret (set_secret st u k v) u k = some v ∧
    get_secret (delete_secret st u k) u k = none := by
  constructor
  · simp [set_secret, get_secret]
  · exact get_secret_delete st u k

/-- Claim C5: get_or_create never fails; on an unseen id it returns a new
empty session; a second get_or_create with the same id returns that same
session without creating another one; starting from an empty store, any
sequence of calls leaves at most one session per id. -/
theorem get_or_create_spec (st : SessionStore) (sid : String) :
    (lookupSession st sid = none →
      get_or_create st sid = ((sid, emptySession sid) :: st, emptySession sid)) ∧
    get_or_create (get_or_create st sid).1 sid =
      ((get_or_create st sid).1, (get_or_create st sid).2) ∧
    ∀ sids : List String, countKey (runCalls [] sids) sid ≤ 1 := by
  refine ⟨fun h => by simp [get_or_create, h], ?_, ?_⟩
  · cases h : lookupSession st sid with
    | some s => simp [get_or_create, h]
    | none => simp [get_or_create, h, lookupSession]
  · intro sids
    exact countKey_runCalls [] sids sid (by simp [countKey])

/-- Claim C5 witness: a call on the empty store creates exactly the new
empty session for the requested id. -/
theorem get_or_create_spec_witness :
    get_or_create ([] : SessionStore) "s1" =
      ([("s1", emptySession "s1")], emptySession "s1") :=
  (get_or_create_spec ([] : SessionStore) "s1").1 rfl

/-- Claim C2: every tool name in either merged catalog resolves to the
provider encoded by its name tag, so a booking-tagged tool is never sent
to the calendar adapter and a calendar-tagged tool is never sent to the
booking adapter. -/
theorem gateway_routing (bookingCatalog calendarCatalog : List (List Char)) :
    (∀ e ∈ list_tools bookingCatalog calendarCatalog,
      resolveProvider e.1 = some e.2) ∧
    ∀ raw : List Char,
      resolveProvider (mergedName .booking raw) ≠ some .calendar ∧
      resolveProvider (mergedName .calendar raw) ≠ some .booking := by
  constructor
  · intro e he
    simp only [list_tools, List.mem_append, List.mem_map] at he
    rcases he with ⟨n, _, rfl⟩ | ⟨n, _, rfl⟩ <;>
      exact resolveProvider_mergedName _ _
  · intro raw
    constructor
    · rw [resolveProvider_mergedName]
      simp
    · rw [resolveProvider_mergedName]
      simp

/-- Claim C2 witness: a concrete booking tool in a one-tool catalog is
routed to the booking provider. -/
theorem gateway_routing_witness :
    resolveProvider (mergedName .booking ['b', 'o', 'o', 'k']) =
      some Provider.booking :=
  (gateway_routing [['b', 'o', 'o', 'k']] []).1
    (mergedName .booking ['b', 'o', 'o', 'k'], Provider.booking)
    (by simp [list_tools])

/-- Claim C4: ensure_fresh compares the stored expiry with now plus the
60-second margin; within the margin it performs exactly one exchange and
persists the exchanged token by whole replacement, or on a revocation
response deletes the token and signals CredentialRevoked with no retry;
outside the margin the stored token is returned unchanged with no
exchange. -/
theorem ensure_fresh_spec (now : Nat) (tok : OAuthToken)
    (exchange : OAuthToken → ExchangeResult) :
    (tok.expiry ≤ now + safetyMargin →
      (∀ newTok, exchange tok = .refreshed newTok →
        ensure_fresh now (some tok) exchange =
          { store := some newTok, outcome := .fresh newTok, exchanges := 1 }) ∧
      (exchange tok = .revoked →
        ensure_fresh now (some tok) exchange =
          { store := none, outcome := .credentialRevoked, exchanges := 1 })) ∧
    (now + safetyMargin < tok.expiry →
      ensure_fresh now (some tok) exchange =
        { store := some tok, outcome := .fresh tok, exchanges := 0 }) := by
  constructor
  · intro hexp
    constructor
    · intro newTok hx
      simp [ensure_fresh, hexp, hx]
    · intro hx
      simp [ensure_fresh, hexp, hx]
  · intro hexp
    have : ¬tok.expiry ≤ now + safetyMargin := by omega
    simp [ensure_fresh, this]

/-- Sample tokens used by the ensure_fresh witness. -/
def tokSample : OAuthToken :=
  { access_token := "a", refresh_token := "r", expiry := 30 }

def tokSample2 : OAuthToken :=
  { access_token := "b", refresh_token := "r2", expiry := 500 }

/-- Claim C4 witness: a token expiring in 30 seconds is refreshed by one
exchange and replaced whole in the store. -/
theorem ensure_fresh_spec_witness :
    ensure_fresh 0 (some tokSample) (fun _ => .refreshed tokSample2) =
      { store := some tokSample2, outcome := .fresh tokSample2,
        exchanges := 1 } :=
  ((ensure_fresh_spec 0 tokSample (fun _ => .refreshed tokSample2)).1
    (by decide)).1 tokSample2 rfl

/-- Claim C1: the loop performs at most 8 tool-call dispatch iterations
per turn, and when the model keeps returning tool-call requests the loop
stops with a synthesized ToolBoundExceeded apology after exactly 8
dispatches, with no 9th dispatch. -/
theorem agent_loop_bound (model : Nat → ModelStep) (msg : String) :
    (runTurnLoop model msg).2 ≤ toolBound ∧
    ((∀ j, ∃ calls, model j = .toolCalls calls) →
      runTurnLoop model msg = (.toolBoundExceeded apologyTurn, toolBound)) := by
  constructor
  · have := runLoop_dispatch_le model toolBound 0 [userTurn msg]
    simpa [runTurnLoop] using this
  · intro h
    have := runLoop_all_toolCalls model h toolBound 0 [userTurn msg]
    simpa [runTurnLoop] using this

/-- Claim C1 witness: a model that always requests tool calls is stopped
with the apology after exactly 8 dispatch iterations. -/
theorem agent_loop_bound_witness :
    runTurnLoop (fun _ => .toolCalls []) "book a room" =
      (.toolBoundExceeded apologyTurn, toolBound) :=
  (agent_loop_bound (fun _ => .toolCalls []) "book a room").2
    (fun _ => ⟨[], rfl⟩)

/-- Claim C3: every terminal failure of a turn, the caller's mid-stream
disconnect included, leaves the session state Idle and the history
exactly as before the turn, with no partial turn appended. -/
theorem terminal_failures_preserve_history (sess : Session) (msg : String)
    (model : Nat → ModelStep) (da : Option Nat)
    (h : ∀ chunks, (run_turn sess msg model da).2 ≠ .completed chunks) :
    (run_turn sess msg model da).1.history = sess.history ∧
    (run_turn sess msg model da).1.state = .idle := by
  cases hl : (runTurnLoop model msg).1 with
  | completed pending chunks =>
    cases da with
    | none =>
      exact absurd (by simp [run_turn, hl]) (h chunks)
    | some j =>
      by_cases hj : j < chunks.length
      · constructor <;> simp [run_turn, hl, hj]
      · exact absurd (by simp [run_turn, hl, hj]) (h chunks)
  | toolBoundExceeded a => constructor <;> simp [run_turn, hl]
  | upstreamError => constructor <;> simp [run_turn, hl]
  | credentialError => constructor <;> simp [run_turn, hl]

/-- Sample idle session used by the claim C3 witness. -/
def sessSample : Session := { id := "s", history := [], state := .idle }

/-- Claim C3 witness: an upstream failure on the first model call leaves
the concrete session history and state untouched. -/
theorem terminal_failures_witness :
    (run_turn sessSample "hi" (fun _ => .upstreamFail) none).1.history =
      sessSample.history ∧
    (run_turn sessSample "hi" (fun _ => .upstreamFail) none).1.state = .idle :=
  terminal_failures_preserve_history sessSample "hi" (fun _ => .upstreamFail)
    none
    (fun chunks hc => by
      have h2 : (run_turn sessSample "hi" (fun _ => .upstreamFail) none).2 =
          .upstreamError := by decide
      rw [h2] at hc
      exact TurnResult.noConfusion hc)

/-- Claim C6: a streamed response carries one event per output chunk
followed by a single final terminating event, and the chat client accepts
a batched payload exactly when it is a JSON array, showing an error on
any non-array payload. -/
theorem send_message_response_shapes (chunks items : List String)
    (payload : JsonPayload) :
    ((streamEvents chunks).length = chunks.length + 1 ∧
     (streamEvents chunks).getLast? = some .done ∧
     ∀ i, (h : i < chunks.length) →
       (streamEvents chunks).get? i = some (.chunk (chunks.get ⟨i, h⟩))) ∧
    handleSendPayload true (.arr items) = .appended items ∧
    (handleSendPayload true payload = .errorShown ↔ payload = .nonArray) := by
  refine ⟨⟨by simp [streamEvents], by simp [streamEvents], ?_⟩, rfl, ?_⟩
  · intro i h
    have hlen : i < (chunks.map SseEvent.chunk).length := by simpa using h
    rw [streamEvents, List.get?_append hlen, List.get?_map,
      List.get?_eq_get h]
    rfl
  · cases payload <;> simp [handleSendPayload]

/-- Claim C6 witness: in a two-chunk stream the second event is the
second chunk. -/
theorem send_message_response_shapes_witness :
    (streamEvents ["a", "b"]).get? 1 = some (.chunk "b") :=
  ((send_message_response_shapes ["a", "b"] [] .nonArray).1.2.2) 1 (by decide)

/-- Claim C8 counterexample: the claim as stated promises one backend
fetch whenever the message parameter is present, but on a present yet
empty message the route's falsy guard answers 400 with a JSON error and
performs no backend fetch at all. -/
theorem proxy_route_empty_message_counterexample :
    (sendMessageGET { message := some "", session := some "x" }
        (fun _ _ => .response 200)).2 = [] ∧
    (sendMessageGET { message := some "", session := some "x" }
        (fun _ _ => .response 200)).1 = { status := 400, body := .jsonError } := by
  constructor <;> rfl

/-- Claim C8, amended: the proxy route answers a missing or empty message
parameter with a 400 JSON error and no backend fetch; otherwise it
performs exactly one backend fetch with the session parameter defaulted
to "default", forwards a non-ok backend status as a JSON error with the
same status, and maps a failed backend connection to a 502 JSON error. -/
theorem proxy_route_spec (req : ProxyRequest)
    (backend : String → String → BackendReply) :
    ((req.message = none ∨ req.message = some "") →
      sendMessageGET req backend = ({ status := 400, body := .jsonError }, [])) ∧
    ∀ msg, req.message = some msg → msg ≠ "" →
      (sendMessageGET req backend).2 = [(msg, req.session.getD "default")] ∧
      (backend msg (req.session.getD "default") = .connectFail →
        (sendMessageGET req backend).1 = { status := 502, body := .jsonError }) ∧
      ∀ st, backend msg (req.session.getD "default") = .response st →
        respOk st = false →
        (sendMessageGET req backend).1 = { status := st, body := .jsonError } := by
  constructor
  · rintro (h | h) <;> simp [sendMessageGET, h]
  · intro msg hm hne
    refine ⟨?_, ?_, ?_⟩
    · cases hb : backend msg (req.session.getD "default") with
      | connectFail => simp [sendMessageGET, hm, hne, hb]
      | response st =>
        by_cases hok : respOk st <;> simp [sendMessageGET, hm, hne, hb, hok]
    · intro hb
      simp [sendMessageGET, hm, hne, hb]
    · intro st hb hok
      simp [sendMessageGET, hm, hne, hb, hok]

/-- Claim C8 witness: with a present non-empty message, an absent session
and an unreachable backend, the route fetches once with session "default"
and returns 502. -/
theorem proxy_route_spec_witness :
    (sendMessageGET { message := some "hello", session := none }
        (fun _ _ => .connectFail)).2 = [("hello", "default")] ∧
    (sendMessageGET { message := some "hello", session := none }
        (fun _ _ => .connectFail)).1 = { status := 502, body := .jsonError } := by
  have h := (proxy_route_spec { message := some "hello", session := none }
    (fun _ _ => .connectFail)).2 "hello" rfl (by decide)
  exact ⟨h.1, h.2.1 rfl⟩

/-- Claim C9: handleSave deletes the secret exactly when the trimmed
value is empty and otherwise sets the trimmed value; the value it stores
never begins or ends with white space; a whitespace-only input deletes
the secret. -/
theorem handleSave_trims (key : String) (v : List Char) :
    (handleSaveCall key v = .deleteCall key ↔ jsTrim v = []) ∧
    (jsTrim v ≠ [] → handleSaveCall key v = .setCall key (jsTrim v)) ∧
    (∀ w, handleSaveCall key v = .setCall key w →
      (∀ c, w.head? = some c → jsWhitespace c = false) ∧
      ∀ c, w.getLast? = some c → jsWhitespace c = false) ∧
    ((∀ c ∈ v, jsWhitespace c = true) → handleSaveCall key v = .deleteCall key) := by
  refine ⟨?_, ?_, ?_, ?_⟩
  · unfold handleSaveCall
    by_cases h : jsTrim v = [] <;> simp [h]
  · intro h
    simp [handleSaveCall, h]
  · intro w hw
    unfold handleSaveCall at hw
    by_cases h : jsTrim v = []
    · simp [h] at hw
    · simp [h] at hw
      rw [← hw]
      exact ⟨fun c => jsTrim_head_not_ws v c, fun c => jsTrim_getLast_not_ws v c⟩
  · intro h
    simp [handleSaveCall, jsTrim_all_ws v h]

/-- Claim C9 witness: saving a padded value stores it trimmed, and saving
a whitespace-only value deletes the secret. -/
theorem handleSave_trims_witness :
    handleSaveCall "DISH_COOKIE" [' ', 'a', ' '] =
      .setCall "DISH_COOKIE" ['a'] ∧
    handleSaveCall "TEAM_ID" [' ', '\t'] = .deleteCall "TEAM_ID" :=
  ⟨(handleSave_trims "DISH_COOKIE" [' ', 'a', ' ']).2.1 (by decide),
   (handleSave_trims "TEAM_ID" [' ', '\t']).2.2.2 (by decide)⟩

/-- Claim C10: a successful Google Calendar disconnect clears the value
and nulls originalValue of exactly the three Google Calendar credential
entries while keeping their other fields and every DiSH entry unchanged;
a failed disconnect call changes no credential entry. -/
theorem google_disconnect_frame (ok : Bool) (creds : CredKey → CredState) :
    (ok = true → ∀ k,
      (isGcalKey k = true →
        (handleGoogleDisconnect ok creds k).value = "" ∧
        (handleGoogleDisconnect ok creds k).originalValue = none ∧
        (handleGoogleDisconnect ok creds k).isVisible = (creds k).isVisible ∧
        (handleGoogleDisconnect ok creds k).isSaving = (creds k).isSaving ∧
        (handleGoogleDisconnect ok creds k).saveStatus = (creds k).saveStatus) ∧
      (isGcalKey k = false → handleGoogleDisconnect ok creds k = creds k)) ∧
    (ok = false → handleGoogleDisconnect ok creds = creds) := by
  constructor
  · rintro rfl k
    constructor
    · intro hk
      simp [handleGoogleDisconnect, hk]
    · intro hk
      simp [handleGoogleDisconnect, hk]
  · rintro rfl
    simp [handleGoogleDisconnect]

/-- Sample credential state used by the claim C10 witness. -/
def credsSample : CredKey → CredState := fun _ =>
  { value := "v", originalValue := some "v", isVisible := false,
    isSaving := false, saveStatus := .statusIdle }

/-- Claim C10 witness: after a successful disconnect the access-token
entry is cleared and nulled while a DiSH entry is untouched. -/
theorem google_disconnect_frame_witness :
    (handleGoogleDisconnect true credsSample .gcalAccessToken).value = "" ∧
    (handleGoogleDisconnect true credsSample .gcalAccessToken).originalValue =
      none ∧
    handleGoogleDisconnect true credsSample .dishCookie =
      credsSample CredKey.dishCookie :=
  ⟨(((google_disconnect_frame true credsSample).1 rfl .gcalAccessToken).1
      rfl).1,
   (((google_disconnect_frame true credsSample).1 rfl .gcalAccessToken).1
      rfl).2.1,
   ((google_disconnect_frame true credsSample).1 rfl .dishCookie).2 rfl⟩

end DishAgent
